import Mathlib

/-!
Verification of the databend meta-service and query-optimizer subsystems.

Shallow embedding of:
* `src/meta/service/src/meta_service/raftmeta.rs` (request forwarding,
  raft config derivation, cluster join),
* `src/meta/sled-store/src/sled_tree.rs` (transactional sled tree),
* `src/query/service/src/sql/planner/optimizer/heuristic/subquery_rewriter.rs`
  (uncorrelated subquery rewrites),
* `src/query/service/src/sql/planner/optimizer/cascades/tasks/explore_group.rs`
  and `apply_rule.rs` (cascades exploration tasks and memo insertion).
-/

set_option maxHeartbeats 1000000

namespace Databend

namespace MetaService

/-- Error carried by `MetaOperationError::ForwardToLeader`: the id of the leader
this request should be forwarded to, when known. -/
structure ForwardToLeader where
  leader_id : Option Nat
deriving DecidableEq

/-- Errors `handle_forwardable_request` can surface
(`MetaAPIError` in the source, simplified to the variants it uses:
`CanNotForward` carries an `AnyError` message, `DataError` an opaque payload,
and RPC failures of `forward_to` are already converted by `?`). -/
inductive MetaAPIError where
  | CanNotForward (msg : String)
  | ForwardToLeader (e : ForwardToLeader)
  | DataError (msg : String)
  | NetworkError (msg : String)
deriving DecidableEq

/-- Operation errors returned by local leader handling (`MetaOperationError`). -/
inductive MetaOperationError where
  | ForwardToLeader (e : ForwardToLeader)
  | DataError (msg : String)

/-- Conversion of `MetaDataError` into `MetaAPIError` used by
`handle_forwardable_request` for the `DataError` arm. -/
def MetaDataError.intoAPI (msg : String) : MetaAPIError :=
  MetaAPIError.DataError msg

/-- Request envelope `ForwardRequest { forward_to_leader, body }`.
The body type is abstract here: `handle_forwardable_request` never inspects it. -/
structure ForwardRequest (B : Type) where
  forward_to_leader : Nat
  body : B
deriving DecidableEq

/-- Modelled from the spec: `ForwardRequest::decr_forward` is declared in
`meta/types` (not under `src/`).  The spec describes it as "decrementing a
forward-budget counter to bound retries", so it decrements
`forward_to_leader` by one. -/
def ForwardRequest.decr_forward {B : Type} (r : ForwardRequest B) : ForwardRequest B :=
  { r with forward_to_leader := r.forward_to_leader - 1 }

/-- Environment of one `handle_forwardable_request` call: the outcome of
`self.as_leader()`, the local leader handler `leader.handle_forwardable_req`,
and the network call `self.forward_to` (whose error is already converted to
`MetaAPIError` by the `?` operator in the source). -/
structure HandleEnv (B R : Type) where
  as_leader_res : Except ForwardToLeader Unit
  handle_forwardable_req : ForwardRequest B → Except MetaOperationError R
  forward_to : Nat → ForwardRequest B → Except MetaAPIError R

/-- Embedding of `MetaNode::handle_forwardable_request`.  Besides the result it
returns the list of `forward_to` invocations `(leader_id, request)` made, so
that "never attempts a network call" is statable. -/
def handle_forwardable_request {B R : Type} (env : HandleEnv B R)
    (req : ForwardRequest B) :
    Except MetaAPIError R × List (Nat × ForwardRequest B) :=
  let forward := req.forward_to_leader
  -- Handle the request locally or return a ForwardToLeader error
  let local_res : Except MetaOperationError R :=
    match env.as_leader_res with
    | Except.ok _ => env.handle_forwardable_req req
    | Except.error e => Except.error (MetaOperationError.ForwardToLeader e)
  match local_res with
  | Except.ok x => (Except.ok x, [])
  | Except.error op_err =>
    match op_err with
    | MetaOperationError.DataError d => (Except.error (MetaDataError.intoAPI d), [])
    | MetaOperationError.ForwardToLeader to_leader =>
      if forward = 0 then
        (Except.error (MetaAPIError.CanNotForward "max number of forward reached"), [])
      else
        match to_leader.leader_id with
        | none =>
          (Except.error
            (MetaAPIError.CanNotForward "need to forward but no known leader"), [])
        | some leader_id =>
          -- Avoid infinite forward
          let r2 := req.decr_forward
          (env.forward_to leader_id r2, [(leader_id, r2)])

/-- Request constructed by `MetaNode::write`:
`ForwardRequest { forward_to_leader: 1, body: ForwardRequestBody::Write(req) }`. -/
def write_request {B : Type} (body : B) : ForwardRequest B :=
  { forward_to_leader := 1, body := body }

/-- Embedding of `MetaNode::write`: submits the write through
`handle_forwardable_request` with a forward budget of 1. -/
def write {B R : Type} (env : HandleEnv B R) (body : B) :
    Except MetaAPIError R × List (Nat × ForwardRequest B) :=
  handle_forwardable_request env (write_request body)

/-- Snapshot policy of the raft config (`openraft::SnapshotPolicy`). -/
inductive SnapshotPolicy where
  | LogsSinceLast (n : Nat)
deriving DecidableEq

/-- Fields of the service-side `RaftConfig` read by `new_raft_config`. -/
structure RaftConfig where
  cluster_name : String
  heartbeat_interval : Nat
  install_snapshot_timeout : Nat
  snapshot_logs_since_last : Nat
  max_applied_log_to_keep : Nat

/-- Fields of `openraft::Config` that `MetaNode::new_raft_config` sets
(the remaining fields come from `Default::default()` and are irrelevant here). -/
structure Config where
  cluster_name : String
  heartbeat_interval : Nat
  election_timeout_min : Nat
  election_timeout_max : Nat
  install_snapshot_timeout : Nat
  snapshot_policy : SnapshotPolicy
  max_applied_log_to_keep : Nat

/-- Embedding of `MetaNode::new_raft_config` (the record it builds; the
trailing `.validate()` is an external `openraft` check that either returns the
config unchanged or panics). -/
def new_raft_config (config : RaftConfig) : Config :=
  let hb := config.heartbeat_interval
  { cluster_name := config.cluster_name
    heartbeat_interval := hb
    election_timeout_min := hb * 8
    election_timeout_max := hb * 12
    install_snapshot_timeout := config.install_snapshot_timeout
    snapshot_policy := SnapshotPolicy.LogsSinceLast config.snapshot_logs_since_last
    max_applied_log_to_keep := config.max_applied_log_to_keep }

/-- Outcome of one join attempt against one candidate address: channel
creation failure, a transport-level RPC failure, or a `ForwardResponse`
reply carrying `data` and `error` payloads. -/
inductive JoinAttemptOutcome where
  | ChanErr (msg : String)
  | RpcErr (msg : String)
  | Reply (data : String) (err : String)

/-- Management errors surfaced by `join_cluster` / `leave_cluster`
(`MetaManagementError`); the `AnyError` message content is represented by the
node id and the candidate address list it is formatted from. -/
inductive MetaManagementError where
  | Join (node_id : Nat) (addrs : List String)
  | Leave (node_id : Nat) (addrs : List String)
deriving DecidableEq

/-- Fields of `RaftConfig` that `MetaNode::join_cluster` reads:
the node id, the `--join` candidate list, and the node's own advertise
address (`raft_api_advertise_host_string()`). -/
structure JoinRaftConfig where
  id : Nat
  join : List String
  raft_api_advertise_host_string : String

/-- Loop body of `MetaNode::join_cluster` over the remaining candidate
addresses.  Along with the result it returns the list of addresses actually
contacted (a channel-creation or RPC attempt), so that "at most once" and
"stops at first success" are statable. -/
def join_cluster_loop (conf : JoinRaftConfig)
    (try_join : String → JoinAttemptOutcome) :
    List String → Except MetaManagementError Unit × List String
  | [] => (Except.error (MetaManagementError.Join conf.id conf.join), [])
  | addr :: rest =>
    -- avoid join via self
    if addr = conf.raft_api_advertise_host_string then
      join_cluster_loop conf try_join rest
    else
      match try_join addr with
      | JoinAttemptOutcome.ChanErr _ =>
        let r := join_cluster_loop conf try_join rest
        (r.1, addr :: r.2)
      | JoinAttemptOutcome.RpcErr _ =>
        let r := join_cluster_loop conf try_join rest
        (r.1, addr :: r.2)
      | JoinAttemptOutcome.Reply data _err =>
        if data.isEmpty then
          let r := join_cluster_loop conf try_join rest
          (r.1, addr :: r.2)
        else
          (Except.ok (), [addr])

/-- Embedding of `MetaNode::join_cluster`: returns `Ok` without any attempt
when the `--join` list is empty or the store was opened from persisted state
(`is_opened`); otherwise runs the candidate loop. -/
def join_cluster (is_opened : Bool) (conf : JoinRaftConfig)
    (try_join : String → JoinAttemptOutcome) :
    Except MetaManagementError Unit × List String :=
  if conf.join.isEmpty then (Except.ok (), [])
  else if is_opened then (Except.ok (), [])
  else join_cluster_loop conf try_join conf.join

/-- Predicate: this candidate address does not produce a successful join —
it is the node's own advertise address (skipped), or the attempt fails, or
the reply carries an empty `data` payload. -/
def attempt_fails (conf : JoinRaftConfig)
    (try_join : String → JoinAttemptOutcome) (addr : String) : Bool :=
  decide (addr = conf.raft_api_advertise_host_string) ||
  (match try_join addr with
   | JoinAttemptOutcome.ChanErr _ => true
   | JoinAttemptOutcome.RpcErr _ => true
   | JoinAttemptOutcome.Reply data _ => data.isEmpty)

/-- Concrete environment used to witness the forwarding theorem: a node that
believes node 5 is the leader, whose network forward returns 7. -/
def c1Env : HandleEnv Unit Nat :=
  { as_leader_res := Except.error ⟨some 5⟩
    handle_forwardable_req := fun _ => Except.error (MetaOperationError.DataError "unused")
    forward_to := fun _ _ => Except.ok 7 }

/-- Concrete configuration used to witness the join theorem. -/
def c9Conf : JoinRaftConfig :=
  { id := 4, join := ["n1", "self", "n2", "n3"],
    raft_api_advertise_host_string := "self" }

/-- Concrete attempt outcomes: `n1` fails at the channel, `n2` replies with a
non-empty payload, `n3` would also succeed but is never reached. -/
def c9TryJoin : String → JoinAttemptOutcome := fun addr =>
  if addr = "n1" then JoinAttemptOutcome.ChanErr "refused"
  else if addr = "n2" then JoinAttemptOutcome.Reply "ok" ""
  else if addr = "n3" then JoinAttemptOutcome.Reply "ok" ""
  else JoinAttemptOutcome.RpcErr "status"

end MetaService

namespace SledStore

/-- Storage-level errors (`MetaStorageError` from `common_meta_stoerr`),
with the four variants matched by `SledTree::txn`. -/
inductive MetaStorageError where
  | BytesError (msg : String)
  | SledError (msg : String)
  | TransactionConflict
  | SnapshotError (msg : String)
deriving DecidableEq

/-- Content of one `sled::Tree`: an association list from serialized keys to
serialized values.  A serialized key is the one-byte key-space prefix paired
with the key payload (every `SledKeySpace` prefixes its keys). -/
abbrev TreeState := List ((Nat × Nat) × Nat)

/-- Lookup of a serialized key (`TransactionalTree::get`). -/
def treeGet (st : TreeState) (k : Nat × Nat) : Option Nat :=
  (st.find? (fun e => e.1 == k)).map (fun e => e.2)

/-- Store a serialized key/value pair (`TransactionalTree::insert`). -/
def treeInsert (st : TreeState) (k : Nat × Nat) (v : Nat) : TreeState :=
  (k, v) :: st.filter (fun e => e.1 != k)

/-- Delete a serialized key (`TransactionalTree::remove`). -/
def treeRemove (st : TreeState) (k : Nat × Nat) : TreeState :=
  st.filter (fun e => e.1 != k)

/-- Outcome of one run of the closure handed to `sled::Tree::transaction`:
commit the written state (with the flush flag recording whether
`txn_tree.flush()` was called), abort with an application error, or signal a
conflict so the store retries the transaction. -/
inductive TxnOutcome (T : Type) where
  | Commit (r : T) (st : TreeState) (flushed : Bool)
  | Abort (e : MetaStorageError)
  | Conflict

/-- Final error of `sled::Tree::transaction`
(`sled::transaction::TransactionError`). -/
inductive TransactionError where
  | Abort (e : MetaStorageError)
  | Storage (msg : String)

/-- Modelled from the spec: the driver of `sled::Tree::transaction` is
external crate code.  Per its contract (and the spec's "a `TransactionConflict`
signals the caller should retry the whole transaction"), a committed attempt
publishes its writes, an aborted attempt rolls them back, and a conflicting
attempt is re-run; `fuel` bounds the retries in this pure model. -/
def sledTransaction {T : Type} (attempt : TreeState → TxnOutcome T) :
    Nat → TreeState → Option (Except TransactionError T × TreeState × Bool)
  | 0, _ => none
  | fuel + 1, st =>
    match attempt st with
    | TxnOutcome.Commit r st2 fl => some (Except.ok r, st2, fl)
    | TxnOutcome.Abort e => some (Except.error (TransactionError.Abort e), st, false)
    | TxnOutcome.Conflict => sledTransaction attempt fuel st

/-- Embedding of the closure that `SledTree::txn` passes to
`self.tree.transaction`: run `f`; on success flush if `sync` and commit; on an
error classify it into an abort (`BytesError`, `SledError`, `SnapshotError`)
or the conflict signal (`TransactionConflict`). -/
def txnAttempt {T : Type} (sync : Bool)
    (f : TreeState → Except MetaStorageError T × TreeState) (st : TreeState) :
    TxnOutcome T :=
  match f st with
  | (Except.ok r, st2) => TxnOutcome.Commit r st2 sync
  | (Except.error meta_sto_err, _) =>
    match meta_sto_err with
    | MetaStorageError.BytesError m =>
      TxnOutcome.Abort (MetaStorageError.BytesError m)
    | MetaStorageError.SledError m =>
      TxnOutcome.Abort (MetaStorageError.SledError m)
    | MetaStorageError.TransactionConflict => TxnOutcome.Conflict
    | MetaStorageError.SnapshotError m =>
      TxnOutcome.Abort (MetaStorageError.SnapshotError m)

/-- Outer error conversion of `SledTree::txn`: `TransactionError::Abort(e)`
returns `e` itself, `TransactionError::Storage(e)` is wrapped as `SledError`. -/
def convertTxnError : TransactionError → MetaStorageError
  | TransactionError.Abort e => e
  | TransactionError.Storage msg => MetaStorageError.SledError msg

/-- Configuration of a `SledTree` relevant to `txn`: the tree name and the
`sync` flag ("with sync==false, it WONT fsync even when user tell it to
sync"). -/
structure SledTree where
  name : String
  sync : Bool

/-- Embedding of `SledTree::txn(sync, f)`.  The extra `fuel` argument bounds
the conflict retries of the underlying store; the `Bool` in the result records
whether the durability flush ran. -/
def SledTree.txn {T : Type} (self : SledTree) (fuel : Nat) (sync : Bool)
    (f : TreeState → Except MetaStorageError T × TreeState) (st : TreeState) :
    Option (Except MetaStorageError T × TreeState × Bool) :=
  let sync := sync && self.sync
  (sledTransaction (txnAttempt sync f) fuel st).map
    (fun r =>
      (match r.1 with
       | Except.ok x => Except.ok x
       | Except.error txn_err => Except.error (convertTxnError txn_err),
       r.2.1, r.2.2))

/-- Key-space identity (`SledKeySpace::PREFIX`): the byte that namespaces all
keys of one key space inside the shared tree.  Key and value payloads are
`Nat`; the order-preserving serialization of the concrete key/value types is
external (`SledOrderedSerde`/`SledSerde` impls), modelled as the injective
`serialize_key k = (prefix byte, k)` and the identity on values. -/
structure KeySpace where
  prefix_byte : Nat

/-- Serialized form of a key of this key space (`KV::serialize_key`). -/
def KeySpace.serialize_key (ks : KeySpace) (k : Nat) : Nat × Nat :=
  (ks.prefix_byte, k)

/-- Embedding of `AsTxnKeySpace::update_and_fetch`: read the current value
stored under `key`, apply `f`, store the new value (or remove the key when `f`
returns none), and return `f`'s result. -/
def update_and_fetch (ks : KeySpace) (st : TreeState) (key : Nat)
    (f : Option Nat → Option Nat) : Option Nat × TreeState :=
  let key_ivec := ks.serialize_key key
  let old_val := treeGet st key_ivec
  let new_val := f old_val
  let st2 :=
    match new_val with
    | some v => treeInsert st key_ivec v
    | none => treeRemove st key_ivec
  (new_val, st2)

end SledStore

namespace Cascades

/-- State of a memo group (`GroupState` in `sql/planner/optimizer/group.rs`). -/
inductive GroupState where
  | Init
  | Exploring
  | Explored
deriving DecidableEq

/-- A multi-expression reference held by a group: the fields of `MExpr` that
`ExploreGroupTask::explore_group` reads when scheduling `ExploreExprTask`s —
the group it belongs to and its index within the group. -/
structure MExpr where
  group_index : Nat
  index : Nat
deriving DecidableEq

/-- A memo group: its multi-expression list and its exploration state. -/
structure Group where
  m_exprs : List MExpr
  state : GroupState
deriving DecidableEq

/-- Number of multi-expressions in the group (`Group::num_exprs`). -/
def Group.num_exprs (g : Group) : Nat :=
  g.m_exprs.length

/-- Set the group's state (`Group::set_state`). -/
def Group.set_state (g : Group) (s : GroupState) : Group :=
  { g with state := s }

/-- State of an `ExploreGroupTask` (`ExploreGroupState`). -/
inductive ExploreGroupState where
  | Init
  | Explored
deriving DecidableEq

/-- Event produced by one `explore_group` pass (`ExploreGroupEvent`). -/
inductive ExploreGroupEvent where
  | Exploring
  | Explored
deriving DecidableEq

/-- Fields of `ExploreGroupTask` read and written by the state machine.  The
`SharedCounter` plumbing to a parent task is not modelled: the claim concerns
the watermark and the state transitions. -/
structure ExploreGroupTask where
  state : ExploreGroupState
  group_index : Nat
  last_explored_m_expr : Option Nat
deriving DecidableEq

/-- Embedding of `ExploreGroupTask::explore_group`: one pass over the task's
group.  Returns the updated task, the updated group, the
`(group_index, index)` pairs of the `ExploreExprTask`s scheduled for the
multi-expressions past the watermark, and the produced event. -/
def ExploreGroupTask.explore_group (t : ExploreGroupTask) (g : Group) :
    ExploreGroupTask × Group × List (Nat × Nat) × ExploreGroupEvent :=
  -- Check if there is new added MExprs.
  let start_index := t.last_explored_m_expr.getD 0
  if start_index = g.num_exprs then
    (t, g.set_state GroupState.Explored, [], ExploreGroupEvent.Explored)
  else
    ({ t with last_explored_m_expr := some g.num_exprs },
     g,
     (g.m_exprs.drop start_index).map (fun m => (m.group_index, m.index)),
     ExploreGroupEvent.Exploring)

/-- Embedding of `ExploreGroupTask::transition`: run one pass and fold the
produced event into the task state (`Init` + `Exploring` stays `Init`,
`Init` + `Explored` becomes `Explored`).  The source marks `transition` in the
`Explored` state `unreachable!()`; `execute` never calls it there. -/
def ExploreGroupTask.transition (t : ExploreGroupTask) (g : Group) :
    ExploreGroupTask × Group × List (Nat × Nat) :=
  match t.state with
  | ExploreGroupState.Explored => (t, g, [])
  | ExploreGroupState.Init =>
    let r := t.explore_group g
    match r.2.2.2 with
    | ExploreGroupEvent.Exploring => (r.1, r.2.1, r.2.2.1)
    | ExploreGroupEvent.Explored =>
      ({ r.1 with state := ExploreGroupState.Explored }, r.2.1, r.2.2.1)

/-- Embedding of `ExploreGroupTask::execute`: an already-`Explored` task
returns immediately; otherwise the task transitions and re-adds itself to the
scheduler queue (the final `Bool` records the re-enqueue). -/
def ExploreGroupTask.execute (t : ExploreGroupTask) (g : Group) :
    ExploreGroupTask × Group × List (Nat × Nat) × Bool :=
  match t.state with
  | ExploreGroupState.Explored => (t, g, [], false)
  | ExploreGroupState.Init =>
    let r := t.transition g
    (r.1, r.2.1, r.2.2, true)

/-- Modelled from the spec: a multi-expression as the memo deduplicates it —
its operator and its child group indices ("two multi-expressions with
identical operator+child-group signature are the same multi-expression").
`Memo::insert` itself is not under `src/`, only its caller
`ApplyRuleTask::execute`. -/
structure MemoMExpr where
  op : Nat
  children : List Nat
deriving DecidableEq

/-- The memo: an arena of groups, each a list of multi-expressions. -/
structure Memo where
  groups : List (List MemoMExpr)
deriving DecidableEq

/-- Modelled from the spec: insertion of one multi-expression into the group
at the given index, deduplicated structurally — an already-present identical
signature is not added again. -/
def groupsInsert : List (List MemoMExpr) → Nat → MemoMExpr → List (List MemoMExpr)
  | [], _, _ => []
  | g :: gs, 0, e => (if e ∈ g then g else g ++ [e]) :: gs
  | g :: gs, n + 1, e => g :: groupsInsert gs n e

/-- Insert one multi-expression into group `gi` of the memo. -/
def Memo.insert_m_expr (m : Memo) (gi : Nat) (e : MemoMExpr) : Memo :=
  ⟨groupsInsert m.groups gi e⟩

/-- Modelled from the spec: `CascadesOptimizer::insert_from_transform_state`
inserts every multi-expression of a fired rule's `TransformResult` into the
target group. -/
def Memo.insert_from_transform_state (m : Memo) (target_group_index : Nat)
    (state : List MemoMExpr) : Memo :=
  state.foldl (fun acc e => acc.insert_m_expr target_group_index e) m

/-- Embedding of the memo effect of `ApplyRuleTask::execute`: the rule's
`TransformResult` (its list of produced multi-expressions) is inserted into
the target group via `insert_from_transform_state`. -/
def ApplyRuleTask.execute_memo (m : Memo) (target_group_index : Nat)
    (state : List MemoMExpr) : Memo :=
  m.insert_from_transform_state target_group_index state

/-- Memos reachable by the optimizer: start from empty groups, grow by adding
an empty group or inserting a multi-expression through the deduplicating
insert. -/
inductive Memo.Reachable : Memo → Prop where
  | init (n : Nat) : Memo.Reachable ⟨List.replicate n []⟩
  | add_group {m : Memo} : Memo.Reachable m → Memo.Reachable ⟨m.groups ++ [[]]⟩
  | insert {m : Memo} (gi : Nat) (e : MemoMExpr) :
      Memo.Reachable m → Memo.Reachable (m.insert_m_expr gi e)

end Cascades

namespace SubqueryRewriter

/-- Data types used by the uncorrelated subquery rewrites (`DataTypeImpl`,
restricted to the constructors this file builds). -/
inductive DataTypeImpl where
  | Boolean
  | UInt64
  | Int64
  | Nullable (inner : DataTypeImpl)
deriving DecidableEq

/-- Constant values used by the rewrites (`DataValue`). -/
inductive DataValue where
  | Boolean (b : Bool)
  | Int64 (i : Int)
  | UInt64 (n : Nat)
deriving DecidableEq

/-- Comparison operators (`ComparisonOp`). -/
inductive ComparisonOp where
  | Equal
  | NotEqual
  | GT
  | LT
  | GTE
  | LTE
deriving DecidableEq

/-- Join types used by the rewrites (`JoinType`, restricted to the variants
this file builds). -/
inductive JoinType where
  | Inner
  | Single
  | Cross
  | LeftMark
deriving DecidableEq

/-- Subquery kinds (`SubqueryType`). -/
inductive SubqueryType where
  | Scalar
  | Exists
  | NotExists
  | Any
  | All
deriving DecidableEq

/-- Column visibility (`Visibility`). -/
inductive Visibility where
  | Visible
  | InVisible
deriving DecidableEq

/-- Aggregation phase (`AggregateMode`). -/
inductive AggregateMode where
  | Partial
  | Final
  | Initial
deriving DecidableEq

/-- Binding of a column reference (`ColumnBinding`). -/
structure ColumnBinding where
  database_name : Option String
  table_name : Option String
  column_name : String
  index : Nat
  data_type : DataTypeImpl
  visibility : Visibility
deriving DecidableEq

/-- `BooleanType::new_impl()`. -/
def BooleanType.new_impl : DataTypeImpl :=
  DataTypeImpl.Boolean

/-- `UInt64Type::new_impl()`. -/
def UInt64Type.new_impl : DataTypeImpl :=
  DataTypeImpl.UInt64

/-- `NullableType::new_impl(t)` / `NullableType::create(t)`. -/
def NullableType.new_impl (t : DataTypeImpl) : DataTypeImpl :=
  DataTypeImpl.Nullable t

mutual

/-- Scalar expressions (`Scalar`), with the variants `try_rewrite_subquery`
traverses or builds. -/
inductive Scalar where
  | BoundColumnRef (column : ColumnBinding)
  | ConstantExpr (value : DataValue) (data_type : DataTypeImpl)
  | AndExpr (left : Scalar) (right : Scalar) (return_type : DataTypeImpl)
  | OrExpr (left : Scalar) (right : Scalar) (return_type : DataTypeImpl)
  | ComparisonExpr (op : ComparisonOp) (left : Scalar) (right : Scalar)
      (return_type : DataTypeImpl)
  | AggregateFunction (display_name : String) (func_name : String)
      (distinct : Bool) (params : List DataValue) (args : List Scalar)
      (return_type : DataTypeImpl)
  | FunctionCall (arguments : List Scalar) (func_name : String)
      (arg_types : List DataTypeImpl) (return_type : DataTypeImpl)
  | CastExpr (argument : Scalar) (from_type : DataTypeImpl)
      (target_type : DataTypeImpl)
  | SubqueryExpr (subquery : Subquery)

/-- A subquery expression (`SubqueryExpr` in the binder plans; reconstructed
from the fields `subquery_rewriter.rs` reads: kind, rewritten tree, comparand
and operator for quantified comparisons, output column, optional
pre-assigned projection index, and data type). -/
inductive Subquery where
  | mk (typ : SubqueryType) (subquery : SExpr) (child_expr : Option Scalar)
      (compare_op : Option ComparisonOp) (output_column : Nat)
      (projection_index : Option Nat) (data_type : DataTypeImpl)

/-- A scalar bound to an output column index (`ScalarItem`). -/
inductive ScalarItem where
  | mk (scalar : Scalar) (index : Nat)

/-- Relational operators (`RelOperator`), with the variants the rewrites
build or pass through. -/
inductive RelOperator where
  | EvalScalar (items : List ScalarItem)
  | Filter (predicates : List Scalar) (is_having : Bool)
  | Aggregate (group_items : List ScalarItem)
      (aggregate_functions : List ScalarItem) (from_distinct : Bool)
      (mode : AggregateMode)
  | Limit (limit : Option Nat) (offset : Nat)
  | LogicalInnerJoin (left_conditions : List Scalar)
      (right_conditions : List Scalar) (other_conditions : List Scalar)
      (join_type : JoinType) (marker_index : Option Nat)
      (from_correlated_subquery : Bool)
  | LogicalGet (table_index : Nat)
  | DummyTableScan

/-- Expression tree (`SExpr`): an operator node with child trees. -/
inductive SExpr where
  | create (plan : RelOperator) (children : List SExpr)

end

/-- Kind of the subquery (`SubqueryExpr::typ`). -/
def Subquery.typ : Subquery → SubqueryType
  | Subquery.mk t _ _ _ _ _ _ => t

/-- The (already recursively rewritten) subquery tree (`SubqueryExpr::subquery`). -/
def Subquery.subquery : Subquery → SExpr
  | Subquery.mk _ s _ _ _ _ _ => s

/-- Comparand of a quantified comparison (`SubqueryExpr::child_expr`). -/
def Subquery.child_expr : Subquery → Option Scalar
  | Subquery.mk _ _ c _ _ _ _ => c

/-- Operator of a quantified comparison (`SubqueryExpr::compare_op`). -/
def Subquery.compare_op : Subquery → Option ComparisonOp
  | Subquery.mk _ _ _ o _ _ _ => o

/-- Output column index (`SubqueryExpr::output_column`). -/
def Subquery.output_column : Subquery → Nat
  | Subquery.mk _ _ _ _ i _ _ => i

/-- Pre-assigned projection index (`SubqueryExpr::projection_index`). -/
def Subquery.projection_index : Subquery → Option Nat
  | Subquery.mk _ _ _ _ _ p _ => p

/-- Data type of the subquery (`SubqueryExpr::data_type`). -/
def Subquery.data_type : Subquery → DataTypeImpl
  | Subquery.mk _ _ _ _ _ _ d => d

/-- `SExpr::create_unary`. -/
def SExpr.create_unary (plan : RelOperator) (child : SExpr) : SExpr :=
  SExpr.create plan [child]

/-- `SExpr::create_binary`. -/
def SExpr.create_binary (plan : RelOperator) (left : SExpr) (right : SExpr) : SExpr :=
  SExpr.create plan [left, right]

/-- Result classification of one subquery unnesting (`UnnestResult`). -/
inductive UnnestResult where
  | SimpleJoin
  | MarkJoin (marker_index : Nat)
  | SingleJoin
deriving DecidableEq

/-- The column registry of `Metadata` as `add_column` uses it: the next fresh
index is the current column count. -/
structure Metadata where
  columns : List (String × DataTypeImpl)
deriving DecidableEq

/-- `Metadata::add_column`: append the column, return its index and the
updated metadata. -/
def Metadata.add_column (m : Metadata) (name : String) (ty : DataTypeImpl) :
    Nat × Metadata :=
  (m.columns.length, Metadata.mk (m.columns ++ [(name, ty)]))

/-- Errors of the rewrite (`ErrorCode`, plus explicit markers for the
source's `unwrap()` and `unreachable!()` panics). -/
inductive ErrorCode where
  | LogicalError (msg : String)
  | UnwrapNone
  | Unimplemented
deriving DecidableEq

/-- Modelled from the spec: the aggregate function factory
(`AggregateFunctionFactory::instance().get("count", ...)`) is external crate
code; `count` returns an unsigned 64-bit count. -/
def count_return_type : DataTypeImpl :=
  DataTypeImpl.UInt64

/-- Embedding of `check_child_expr_in_subquery`: a column ref is a join-key
condition only for `=`, a constant or cast always goes to the other-condition
side, and any other shape is a `LogicalError`. -/
def check_child_expr_in_subquery : Scalar → ComparisonOp →
    Except ErrorCode (Scalar × Bool)
  | Scalar.BoundColumnRef c, op =>
    Except.ok (Scalar.BoundColumnRef c, op != ComparisonOp.Equal)
  | Scalar.ConstantExpr v t, _ => Except.ok (Scalar.ConstantExpr v t, true)
  | Scalar.CastExpr arg from_t target_t, op =>
    match check_child_expr_in_subquery arg op with
    | Except.ok r => Except.ok (Scalar.CastExpr arg from_t target_t, r.2)
    | Except.error e => Except.error e
  | _, _ => Except.error (ErrorCode.LogicalError "Invalid child expr in subquery")

/-- Embedding of `SubqueryRewriter::try_rewrite_uncorrelated_subquery`.
Metadata is threaded explicitly (it is `self.metadata` behind a lock in the
source); `unwrap()` and `unreachable!()` panics are explicit errors. -/
def try_rewrite_uncorrelated_subquery (meta : Metadata) (left : SExpr)
    (subquery : Subquery) :
    Except ErrorCode ((SExpr × UnnestResult) × Metadata) :=
  match subquery.typ with
  | SubqueryType.Scalar =>
    let join_plan :=
      RelOperator.LogicalInnerJoin [] [] [] JoinType.Single none false
    let s_expr := SExpr.create_binary join_plan left subquery.subquery
    Except.ok ((s_expr, UnnestResult.SingleJoin), meta)
  | SubqueryType.Exists | SubqueryType.NotExists =>
    -- Wrap Limit to current subquery
    let limit := RelOperator.Limit (some 1) 0
    let subquery_expr := SExpr.create_unary limit subquery.subquery
    -- Rewrite the EXISTS subquery into the form COUNT(*) = 1
    let r := meta.add_column "count(*)" count_return_type
    let agg_func_index := r.1
    let meta2 := r.2
    let agg := RelOperator.Aggregate []
      [ScalarItem.mk
        (Scalar.AggregateFunction "count(*)" "count" false [] []
          count_return_type)
        agg_func_index]
      false AggregateMode.Initial
    let compare := Scalar.ComparisonExpr
      (if subquery.typ == SubqueryType.Exists then ComparisonOp.Equal
       else ComparisonOp.NotEqual)
      (Scalar.BoundColumnRef
        (ColumnBinding.mk none none "count(*)" agg_func_index
          count_return_type Visibility.Visible))
      (Scalar.ConstantExpr (DataValue.Int64 1) count_return_type)
      count_return_type
    let filter := RelOperator.Filter [compare] false
    -- Filter: COUNT(*) = 1 or COUNT(*) != 1
    --     Aggregate: COUNT(*)
    let rewritten_subquery :=
      SExpr.create_unary filter (SExpr.create_unary agg subquery_expr)
    let cross_join :=
      RelOperator.LogicalInnerJoin [] [] [] JoinType.Cross none false
    Except.ok
      ((SExpr.create_binary cross_join left rewritten_subquery,
        UnnestResult.SimpleJoin),
       meta2)
  | SubqueryType.Any =>
    let index := subquery.output_column
    let column_name := "subquery_" ++ toString index
    let left_condition := Scalar.BoundColumnRef
      (ColumnBinding.mk none none column_name index subquery.data_type
        Visibility.Visible)
    match subquery.child_expr with
    | none => Except.error ErrorCode.UnwrapNone
    | some child_expr =>
      match subquery.compare_op with
      | none => Except.error ErrorCode.UnwrapNone
      | some op =>
        match check_child_expr_in_subquery child_expr op with
        | Except.error e => Except.error e
        | Except.ok rc =>
          let right_condition := rc.1
          let is_other_condition := rc.2
          let conds :=
            if !is_other_condition then
              (([left_condition], [right_condition]), ([] : List Scalar))
            else
              ((([] : List Scalar), ([] : List Scalar)),
               [Scalar.ComparisonExpr op right_condition left_condition
                 (NullableType.new_impl BooleanType.new_impl)])
          -- Add a marker column to save the comparison result:
          -- the column is Nullable(Boolean), the value TRUE, FALSE or NULL.
          let rm :=
            match subquery.projection_index with
            | some idx => (idx, meta)
            | none =>
              meta.add_column "marker"
                (NullableType.new_impl BooleanType.new_impl)
          let marker_index := rm.1
          let meta2 := rm.2
          -- The subquery is the left child: it will be the probe side.
          let mark_join := RelOperator.LogicalInnerJoin conds.1.1 conds.1.2
            conds.2 JoinType.LeftMark (some marker_index) false
          Except.ok
            ((SExpr.create_binary mark_join subquery.subquery left,
              UnnestResult.MarkJoin marker_index),
             meta2)
  | SubqueryType.All => Except.error ErrorCode.Unimplemented

/-- Embedding of the `Scalar::SubqueryExpr` arm of
`SubqueryRewriter::try_rewrite_subquery`, specialised to an uncorrelated
subquery (`prop.outer_columns.is_empty()`): the subquery has already been
recursively rewritten, `flatten_info.from_count_func` is initialised `false`
and the uncorrelated rewrite never sets it, and `derived_columns` stays
empty.  Returns the scalar replacing the subquery occurrence together with
the new tree. -/
def rewrite_uncorrelated_occurrence (meta : Metadata) (outer : SExpr)
    (subquery : Subquery) :
    Except ErrorCode ((Scalar × SExpr) × Metadata) :=
  match try_rewrite_uncorrelated_subquery meta outer subquery with
  | Except.error e => Except.error e
  | Except.ok ((s_expr, result), meta2) =>
    let flatten_info_from_count_func := false
    -- A simple join lets us replace the original predicate with TRUE
    -- to eliminate the conjunction.
    if result matches UnnestResult.SimpleJoin then
      Except.ok
        ((Scalar.ConstantExpr (DataValue.Boolean true) BooleanType.new_impl,
          s_expr),
         meta2)
    else
      let ir :=
        match result with
        | UnnestResult.MarkJoin marker_index =>
          (marker_index, toString marker_index)
        | UnnestResult.SingleJoin =>
          (subquery.output_column,
           "scalar_subquery_" ++ toString subquery.output_column)
        | UnnestResult.SimpleJoin =>
          (subquery.output_column, "subquery_" ++ toString subquery.output_column)
      let index := ir.1
      let name := ir.2
      let data_type :=
        if subquery.typ == SubqueryType.Scalar then
          match subquery.data_type with
          | DataTypeImpl.Nullable t => DataTypeImpl.Nullable t
          | t => DataTypeImpl.Nullable t
        else if result matches UnnestResult.MarkJoin _ then
          NullableType.new_impl BooleanType.new_impl
        else subquery.data_type
      let column_ref := Scalar.BoundColumnRef
        (ColumnBinding.mk none none name index data_type Visibility.Visible)
      let scalar :=
        if flatten_info_from_count_func then
          -- if count() is not null then count() else 0 — reachable only
          -- through the correlated path, which sets from_count_func
          Scalar.CastExpr
            (Scalar.FunctionCall
              [Scalar.FunctionCall [column_ref] "is_not_null" [data_type]
                BooleanType.new_impl,
               column_ref,
               Scalar.ConstantExpr (DataValue.UInt64 0) UInt64Type.new_impl]
              "if"
              [BooleanType.new_impl, data_type, UInt64Type.new_impl]
              UInt64Type.new_impl)
            data_type UInt64Type.new_impl
        else if subquery.typ == SubqueryType.NotExists then
          Scalar.FunctionCall [column_ref] "not" [data_type]
            (NullableType.new_impl BooleanType.new_impl)
        else column_ref
      Except.ok ((scalar, s_expr), meta2)

end SubqueryRewriter

end Databend

namespace Databend

namespace MetaService

/-- C1: on a node that does not believe itself the leader,
`handle_forwardable_request` with forward budget 0 returns the terminal
`MetaAPIError::CanNotForward` without any `forward_to` network call; with a
positive budget and a known leader it forwards exactly once with the budget
decremented by 1; and `MetaNode::write` uses the default budget 1, permitting
at most one forwarding hop. -/
theorem handle_forwardable_request_non_leader {B R : Type} (env : HandleEnv B R)
    (req : ForwardRequest B) (lid : Option Nat)
    (h : env.as_leader_res = Except.error ⟨lid⟩) :
    (req.forward_to_leader = 0 →
      handle_forwardable_request env req =
        (Except.error (MetaAPIError.CanNotForward "max number of forward reached"), []))
    ∧ (∀ l : Nat, 0 < req.forward_to_leader → lid = some l →
        handle_forwardable_request env req =
          (env.forward_to l { req with forward_to_leader := req.forward_to_leader - 1 },
           [(l, { req with forward_to_leader := req.forward_to_leader - 1 })]))
    ∧ (write_request req.body : ForwardRequest B).forward_to_leader = 1 := by
  refine ⟨?_, ?_, rfl⟩
  · intro h0
    simp [handle_forwardable_request, h, h0]
  · intro l hpos hl
    simp [handle_forwardable_request, h, hl, Nat.pos_iff_ne_zero.mp hpos,
      ForwardRequest.decr_forward]

/-- Witness for C1: at budget 0 the call fails with `CanNotForward` and makes
no network call; at budget 2 it forwards once to leader 5 with budget 1. -/
theorem handle_forwardable_request_non_leader_witness :
    handle_forwardable_request c1Env ⟨0, ()⟩ =
      (Except.error (MetaAPIError.CanNotForward "max number of forward reached"), [])
    ∧ handle_forwardable_request c1Env ⟨2, ()⟩ = (Except.ok 7, [(5, ⟨1, ()⟩)]) := by
  constructor
  · exact (handle_forwardable_request_non_leader c1Env ⟨0, ()⟩ (some 5) rfl).1 rfl
  · have h :=
      (handle_forwardable_request_non_leader c1Env ⟨2, ()⟩ (some 5) rfl).2.1 5
        (by decide) rfl
    simpa using h

/-- C7: `MetaNode::new_raft_config` derives all timers from the single
configured heartbeat interval: `election_timeout_min = 8 * h`,
`election_timeout_max = 12 * h`, and the snapshot policy triggers by log
length since the last snapshot. -/
theorem new_raft_config_timers (config : RaftConfig) :
    (new_raft_config config).election_timeout_min = 8 * config.heartbeat_interval
    ∧ (new_raft_config config).election_timeout_max = 12 * config.heartbeat_interval
    ∧ (new_raft_config config).snapshot_policy
        = SnapshotPolicy.LogsSinceLast config.snapshot_logs_since_last
    ∧ (new_raft_config config).heartbeat_interval = config.heartbeat_interval :=
  ⟨Nat.mul_comm _ _, Nat.mul_comm _ _, rfl, rfl⟩

theorem join_cluster_loop_all_fail (conf : JoinRaftConfig)
    (try_join : String → JoinAttemptOutcome) (addrs : List String)
    (h : ∀ a ∈ addrs, attempt_fails conf try_join a = true) :
    join_cluster_loop conf try_join addrs =
      (Except.error (MetaManagementError.Join conf.id conf.join),
       addrs.filter (fun b => b != conf.raft_api_advertise_host_string)) := by
  induction addrs with
  | nil => simp [join_cluster_loop]
  | cons a rest ih =>
    have ha := h a (List.mem_cons_self a rest)
    have hrest := ih (fun b hb => h b (List.mem_cons_of_mem a hb))
    by_cases hself : a = conf.raft_api_advertise_host_string
    · simp [join_cluster_loop, hself, hrest, List.filter]
    · have hbeq : (a != conf.raft_api_advertise_host_string) = true := by
        simp [bne, beq_eq_false_iff_ne.mpr hself]
      cases hj : try_join a with
      | ChanErr m =>
        simp [join_cluster_loop, hself, hj, hrest, List.filter, hbeq]
      | RpcErr m =>
        simp [join_cluster_loop, hself, hj, hrest, List.filter, hbeq]
      | Reply data err =>
        have hempty : data.isEmpty = true := by
          simpa [attempt_fails, hself, hj] using ha
        simp [join_cluster_loop, hself, hj, hempty, hrest, List.filter, hbeq]

theorem join_cluster_loop_first_success (conf : JoinRaftConfig)
    (try_join : String → JoinAttemptOutcome) (pre : List String) (a : String)
    (post : List String)
    (hpre : ∀ b ∈ pre, attempt_fails conf try_join b = true)
    (ha : attempt_fails conf try_join a = false) :
    join_cluster_loop conf try_join (pre ++ a :: post) =
      (Except.ok (),
       pre.filter (fun b => b != conf.raft_api_advertise_host_string) ++ [a]) := by
  have hself : ¬a = conf.raft_api_advertise_host_string := by
    intro hcontra
    simp [attempt_fails, hcontra] at ha
  obtain ⟨data, err, hj, hdata⟩ :
      ∃ data err, try_join a = JoinAttemptOutcome.Reply data err
        ∧ data.isEmpty = false := by
    cases hj : try_join a with
    | ChanErr m => simp [attempt_fails, hj] at ha
    | RpcErr m => simp [attempt_fails, hj] at ha
    | Reply data err =>
      refine ⟨data, err, rfl, ?_⟩
      simpa [attempt_fails, hself, hj] using ha
  induction pre with
  | nil => simp [join_cluster_loop, hself, hj, hdata]
  | cons b rest ih =>
    have hb := hpre b (List.mem_cons_self b rest)
    have hrest := ih (fun c hc => hpre c (List.mem_cons_of_mem b hc))
    by_cases hbself : b = conf.raft_api_advertise_host_string
    · simp [join_cluster_loop, hbself, List.filter, hrest]
    · have hbeq : (b != conf.raft_api_advertise_host_string) = true := by
        simp [bne, beq_eq_false_iff_ne.mpr hbself]
      cases hjb : try_join b with
      | ChanErr m =>
        simp [join_cluster_loop, hbself, hjb, List.filter, hbeq, hrest]
      | RpcErr m =>
        simp [join_cluster_loop, hbself, hjb, List.filter, hbeq, hrest]
      | Reply d e =>
        have hd : d.isEmpty = true := by
          simpa [attempt_fails, hbself, hjb] using hb
        simp [join_cluster_loop, hbself, hjb, hd, List.filter, hbeq, hrest]

/-- C9: `MetaNode::join_cluster` is an at-most-once bootstrap action: empty
`--join` list or an already-opened store returns `Ok` with no attempt; the
candidate loop skips the node's own advertise address, stops and returns `Ok`
at the first candidate replying with a non-empty success payload, and when
every candidate fails it returns a `MetaManagementError::Join` aggregate
error. -/
theorem join_cluster_spec (is_opened : Bool) (conf : JoinRaftConfig)
    (try_join : String → JoinAttemptOutcome) :
    (conf.join = [] → join_cluster is_opened conf try_join = (Except.ok (), []))
    ∧ (is_opened = true → join_cluster is_opened conf try_join = (Except.ok (), []))
    ∧ (is_opened = false → (∀ a ∈ conf.join, attempt_fails conf try_join a = true) →
        conf.join ≠ [] →
        join_cluster is_opened conf try_join =
          (Except.error (MetaManagementError.Join conf.id conf.join),
           conf.join.filter (fun b => b != conf.raft_api_advertise_host_string)))
    ∧ (∀ pre a post, is_opened = false → conf.join = pre ++ a :: post →
        (∀ b ∈ pre, attempt_fails conf try_join b = true) →
        attempt_fails conf try_join a = false →
        join_cluster is_opened conf try_join =
          (Except.ok (),
           pre.filter (fun b => b != conf.raft_api_advertise_host_string) ++ [a])) := by
  refine ⟨?_, ?_, ?_, ?_⟩
  · intro h
    simp [join_cluster, h]
  · intro h
    subst h
    by_cases hj : conf.join.isEmpty <;> simp [join_cluster, hj]
  · intro hop hfail hne
    have hne' : conf.join.isEmpty = false := by
      simpa [List.isEmpty_iff] using hne
    subst hop
    simp only [join_cluster, hne', Bool.false_eq_true, if_false]
    exact join_cluster_loop_all_fail conf try_join conf.join hfail
  · intro pre a post hop hsplit hpre ha
    have hne' : conf.join.isEmpty = false := by
      simp [List.isEmpty_iff, hsplit]
    subst hop
    simp only [join_cluster, hne', Bool.false_eq_true, if_false]
    rw [hsplit]
    exact join_cluster_loop_first_success conf try_join pre a post hpre ha

/-- Witness for C9: with candidates `[n1, self, n2, n3]` where `n1` fails and
`n2` succeeds, join attempts exactly `n1` then `n2` and returns `Ok`; an
already-opened store attempts nothing. -/
theorem join_cluster_spec_witness :
    join_cluster false c9Conf c9TryJoin = (Except.ok (), ["n1", "n2"])
    ∧ join_cluster true c9Conf c9TryJoin = (Except.ok (), []) := by
  constructor
  · have h := (join_cluster_spec false c9Conf c9TryJoin).2.2.2 ["n1", "self"] "n2"
      ["n3"] rfl rfl (by decide) (by decide)
    simpa using h
  · exact (join_cluster_spec true c9Conf c9TryJoin).2.1 rfl

end MetaService

end Databend

namespace Databend

namespace SledStore

theorem treeGet_insert_self (st : TreeState) (k : Nat × Nat) (v : Nat) :
    treeGet (treeInsert st k v) k = some v := by
  simp [treeGet, treeInsert]

theorem treeGet_remove_self (st : TreeState) (k : Nat × Nat) :
    treeGet (treeRemove st k) k = none := by
  induction st with
  | nil => rfl
  | cons e rest ih =>
    by_cases h : e.1 = k
    · have hf : (e.1 != k) = false := by simp [bne, h]
      simp only [treeRemove, List.filter_cons, hf, Bool.false_eq_true, if_false]
      exact ih
    · have hf : (e.1 != k) = true := by simp [bne, h]
      have hp : (e.1 == k) = false := by simp [h]
      simp only [treeRemove, List.filter_cons, hf, if_true]
      simp only [treeGet, List.find?_cons, hp]
      exact ih

theorem treeGet_remove_other (st : TreeState) (k k2 : Nat × Nat)
    (h : k2 ≠ k) : treeGet (treeRemove st k) k2 = treeGet st k2 := by
  induction st with
  | nil => rfl
  | cons e rest ih =>
    by_cases h1 : e.1 = k
    · have hf : (e.1 != k) = false := by simp [bne, h1]
      have hp : (e.1 == k2) = false := by
        simp [h1]
        exact fun hc => h hc.symm
      simp only [treeRemove, List.filter_cons, hf, Bool.false_eq_true, if_false]
      simp only [treeGet, List.find?_cons, hp]
      exact ih
    · have hf : (e.1 != k) = true := by simp [bne, h1]
      simp only [treeRemove, List.filter_cons, hf, if_true]
      by_cases h2 : e.1 = k2
      · have hp : (e.1 == k2) = true := by simp [h2]
        simp only [treeGet, List.find?_cons, hp]
      · have hp : (e.1 == k2) = false := by simp [h2]
        simp only [treeGet, List.find?_cons, hp]
        exact ih

theorem treeGet_insert_other (st : TreeState) (k k2 : Nat × Nat) (v : Nat)
    (h : k2 ≠ k) : treeGet (treeInsert st k v) k2 = treeGet st k2 := by
  have hp : (k == k2) = false := by
    simp
    exact fun hc => h hc.symm
  simp only [treeInsert, treeGet, List.find?_cons, hp]
  exact treeGet_remove_other st k k2 h

/-- C6: `SledTree::txn(sync, f)` is atomic with respect to application errors:
an `Ok` from `f` commits exactly `f`'s writes and returns `Ok`; a `BytesError`,
`SledError` or `SnapshotError` aborts the transaction (the tree is unchanged)
and returns exactly that error; a `TransactionConflict` is translated into the
store's conflict signal, so the whole transaction is retried instead of
committing partial writes. -/
theorem txn_atomic {T : Type} (self : SledTree) (fuel : Nat) (sync : Bool)
    (f : TreeState → Except MetaStorageError T × TreeState) (st : TreeState) :
    (∀ r st2, f st = (Except.ok r, st2) →
      self.txn (fuel + 1) sync f st = some (Except.ok r, st2, sync && self.sync))
    ∧ (∀ e st2, f st = (Except.error e, st2) →
        e ≠ MetaStorageError.TransactionConflict →
        self.txn (fuel + 1) sync f st = some (Except.error e, st, false))
    ∧ (∀ st2, f st = (Except.error MetaStorageError.TransactionConflict, st2) →
        txnAttempt (sync && self.sync) f st = TxnOutcome.Conflict
        ∧ self.txn (fuel + 1) sync f st = self.txn fuel sync f st) := by
  refine ⟨?_, ?_, ?_⟩
  · intro r st2 hf
    simp [SledTree.txn, sledTransaction, txnAttempt, hf]
  · intro e st2 hf hne
    cases e with
    | TransactionConflict => exact absurd rfl hne
    | BytesError m => simp [SledTree.txn, sledTransaction, txnAttempt, hf, convertTxnError]
    | SledError m => simp [SledTree.txn, sledTransaction, txnAttempt, hf, convertTxnError]
    | SnapshotError m => simp [SledTree.txn, sledTransaction, txnAttempt, hf, convertTxnError]
  · intro st2 hf
    constructor
    · simp [txnAttempt, hf]
    · simp [SledTree.txn, sledTransaction, txnAttempt, hf]

/-- Witness for C6: a transaction whose body succeeds commits its single
write and returns the body's result; one whose body fails with `SledError`
leaves the tree unchanged. -/
theorem txn_atomic_witness :
    (SledTree.mk "test-t" true).txn 1 true
        (fun s => (Except.ok 42, treeInsert s (0, 1) 5)) []
      = some (Except.ok 42, [((0, 1), 5)], true)
    ∧ (SledTree.mk "test-t" true).txn 1 true
        (fun s => ((Except.error (MetaStorageError.SledError "io") :
                      Except MetaStorageError Nat),
                   treeInsert s (0, 1) 5)) [((0, 2), 9)]
      = some (Except.error (MetaStorageError.SledError "io"), [((0, 2), 9)], false) := by
  constructor
  · have h :=
      (txn_atomic (SledTree.mk "test-t" true) 0 true
        (fun s => (Except.ok 42, treeInsert s (0, 1) 5)) []).1 42 [((0, 1), 5)] rfl
    simpa using h
  · have h :=
      (txn_atomic (SledTree.mk "test-t" true) 0 true
        (fun s => ((Except.error (MetaStorageError.SledError "io") :
                      Except MetaStorageError Nat),
                   treeInsert s (0, 1) 5)) [((0, 2), 9)]).2.1
        (MetaStorageError.SledError "io") [((0, 1), 5), ((0, 2), 9)] rfl
        (by decide)
    simpa using h

/-- C10: the durability flush of a successful `SledTree::txn` runs only when
both the caller's `sync` argument and the tree's configured `sync` flag are
true, and the transaction's result value and committed writes are identical
for any caller `sync` value. -/
theorem txn_flush_gating {T : Type} (self : SledTree) (fuel : Nat)
    (s1 s2 : Bool)
    (f : TreeState → Except MetaStorageError T × TreeState) (st : TreeState) :
    (∀ r st2, f st = (Except.ok r, st2) →
      self.txn (fuel + 1) s1 f st = some (Except.ok r, st2, s1 && self.sync))
    ∧ (self.txn fuel s1 f st).map (fun x => (x.1, x.2.1))
        = (self.txn fuel s2 f st).map (fun x => (x.1, x.2.1)) := by
  constructor
  · intro r st2 hf
    simp [SledTree.txn, sledTransaction, txnAttempt, hf]
  · induction fuel with
    | zero => simp [SledTree.txn, sledTransaction]
    | succ n ih =>
      cases hf : f st with
      | mk res stf =>
        cases res with
        | ok r => simp [SledTree.txn, sledTransaction, txnAttempt, hf]
        | error e =>
          cases e with
          | TransactionConflict =>
            simp only [SledTree.txn] at ih ⊢
            simpa [sledTransaction, txnAttempt, hf] using ih
          | BytesError m => simp [SledTree.txn, sledTransaction, txnAttempt, hf]
          | SledError m => simp [SledTree.txn, sledTransaction, txnAttempt, hf]
          | SnapshotError m => simp [SledTree.txn, sledTransaction, txnAttempt, hf]

/-- Witness for C10: with a tree opened with `sync = false`, a successful
transaction with caller `sync = true` commits its write, returns the result,
and silently skips the flush. -/
theorem txn_flush_gating_witness :
    (SledTree.mk "test-t" false).txn 1 true
        (fun s => (Except.ok 7, treeInsert s (1, 2) 3)) []
      = some (Except.ok 7, [((1, 2), 3)], false) := by
  have h :=
    (txn_flush_gating (SledTree.mk "test-t" false) 0 true false
      (fun s => (Except.ok 7, treeInsert s (1, 2) 3)) []).1 7 [((1, 2), 3)] rfl
  simpa using h

/-- C8: `AsTxnKeySpace::update_and_fetch(key, f)` applies `f` to the current
value stored under `key` (`none` when absent); `f`'s result becomes the stored
value (`none` removes the key), every other key keeps its value, and the
returned value is exactly `f`(current value). -/
theorem update_and_fetch_spec (ks : KeySpace) (st : TreeState) (key : Nat)
    (f : Option Nat → Option Nat) :
    (update_and_fetch ks st key f).1 = f (treeGet st (ks.serialize_key key))
    ∧ treeGet (update_and_fetch ks st key f).2 (ks.serialize_key key)
        = f (treeGet st (ks.serialize_key key))
    ∧ (∀ k2, k2 ≠ ks.serialize_key key →
        treeGet (update_and_fetch ks st key f).2 k2 = treeGet st k2) := by
  refine ⟨rfl, ?_, ?_⟩
  · simp only [update_and_fetch]
    cases hv : f (treeGet st (ks.serialize_key key)) with
    | none => simpa [hv] using treeGet_remove_self st (ks.serialize_key key)
    | some v => simpa [hv] using treeGet_insert_self st (ks.serialize_key key) v
  · intro k2 hk
    simp only [update_and_fetch]
    cases hv : f (treeGet st (ks.serialize_key key)) with
    | none => simpa [hv] using treeGet_remove_other st (ks.serialize_key key) k2 hk
    | some v => simpa [hv] using treeGet_insert_other st (ks.serialize_key key) k2 v hk

/-- Witness for C8: incrementing key 1 of key space 2 in a two-entry tree
returns the incremented value, stores it, and leaves the other key space's
entry unchanged. -/
theorem update_and_fetch_spec_witness :
    (update_and_fetch ⟨2⟩ [((2, 1), 10), ((3, 1), 20)] 1
        (fun o => o.map (· + 1))).1 = some 11
    ∧ treeGet (update_and_fetch ⟨2⟩ [((2, 1), 10), ((3, 1), 20)] 1
        (fun o => o.map (· + 1))).2 (2, 1) = some 11
    ∧ treeGet (update_and_fetch ⟨2⟩ [((2, 1), 10), ((3, 1), 20)] 1
        (fun o => o.map (· + 1))).2 (3, 1) = some 20 := by
  have h := update_and_fetch_spec ⟨2⟩ [((2, 1), 10), ((3, 1), 20)] 1
    (fun o => o.map (· + 1))
  refine ⟨?_, ?_, ?_⟩
  · simpa using h.1
  · simpa using h.2.1
  · simpa using h.2.2 (3, 1) (by decide)

end SledStore

end Databend

namespace Databend

namespace Cascades

theorem groupsInsert_nodup (gs : List (List MemoMExpr)) (gi : Nat)
    (e : MemoMExpr) (h : ∀ g ∈ gs, g.Nodup) :
    ∀ g ∈ groupsInsert gs gi e, g.Nodup := by
  induction gs generalizing gi with
  | nil => simp [groupsInsert]
  | cons g0 rest ih =>
    cases gi with
    | zero =>
      intro g hg
      simp only [groupsInsert, List.mem_cons] at hg
      rcases hg with rfl | hg
      · by_cases hmem : e ∈ g0
        · rw [if_pos hmem]
          exact h g0 (List.mem_cons_self g0 rest)
        · rw [if_neg hmem]
          refine List.Nodup.append (h g0 (List.mem_cons_self g0 rest))
            (List.nodup_singleton e) ?_
          intro a ha hb
          rw [List.mem_singleton] at hb
          exact hmem (hb ▸ ha)
      · exact h g (List.mem_cons_of_mem g0 hg)
    | succ n =>
      intro g hg
      simp only [groupsInsert, List.mem_cons] at hg
      rcases hg with rfl | hg
      · exact h g (List.mem_cons_self g rest)
      · exact ih n (fun g2 hg2 => h g2 (List.mem_cons_of_mem g0 hg2)) g hg

theorem reachable_nodup (m : Memo) (h : m.Reachable) :
    ∀ g ∈ m.groups, g.Nodup := by
  induction h with
  | init n =>
    intro g hg
    rw [List.eq_of_mem_replicate hg]
    exact List.nodup_nil
  | add_group _ ih =>
    intro g hg
    rcases List.mem_append.mp hg with hg | hg
    · exact ih g hg
    · rw [List.mem_singleton.mp hg]
      exact List.nodup_nil
  | insert gi e _ ih => exact groupsInsert_nodup _ gi e ih

theorem insert_from_transform_state_nodup (m : Memo) (gi : Nat)
    (state : List MemoMExpr) (h : ∀ g ∈ m.groups, g.Nodup) :
    ∀ g ∈ (m.insert_from_transform_state gi state).groups, g.Nodup := by
  induction state generalizing m with
  | nil => simpa [Memo.insert_from_transform_state] using h
  | cons e rest ih =>
    simp only [Memo.insert_from_transform_state, List.foldl_cons]
    exact ih (m.insert_m_expr gi e) (groupsInsert_nodup m.groups gi e h)

/-- C5: inserting a multi-expression structurally identical to one already
present (same operator, same child group indices), as `ApplyRuleTask::execute`
does via `insert_from_transform_state` after a rule fires, never creates a
second distinct entry: in every reachable memo each group holds at most one
multi-expression per signature. -/
theorem memo_insert_dedup (m : Memo) (h : m.Reachable) (gi : Nat)
    (state : List MemoMExpr) :
    ∀ g ∈ (ApplyRuleTask.execute_memo m gi state).groups, ∀ e, g.count e ≤ 1 := by
  intro g hg e
  have hnd : g.Nodup :=
    insert_from_transform_state_nodup m gi state (reachable_nodup m h) g hg
  exact List.nodup_iff_count_le_one.mp hnd e

/-- Witness for C5: re-inserting the signature `(op 5, children [1])` twice
into a reachable memo that already holds it leaves a single entry. -/
theorem memo_insert_dedup_witness :
    ((ApplyRuleTask.execute_memo
        ((Memo.mk [[]]).insert_m_expr 0 (MemoMExpr.mk 5 [1])) 0
        [MemoMExpr.mk 5 [1], MemoMExpr.mk 5 [1]]).groups.getD 0 []).count
      (MemoMExpr.mk 5 [1]) ≤ 1 := by
  have h := memo_insert_dedup
    ((Memo.mk [[]]).insert_m_expr 0 (MemoMExpr.mk 5 [1]))
    (Memo.Reachable.insert 0 (MemoMExpr.mk 5 [1]) (Memo.Reachable.init 1)) 0
    [MemoMExpr.mk 5 [1], MemoMExpr.mk 5 [1]]
  exact h _ (by decide) (MemoMExpr.mk 5 [1])

/-- C4: a pass of `ExploreGroupTask` schedules `ExploreExprTask`s exactly for
the multi-expressions at indices at or past the last-explored watermark and
advances the watermark to the group's expression count; the task and the
group transition to `Explored` exactly when a pass begins with the watermark
equal to the expression count, and otherwise the task re-enqueues itself with
the group untouched. -/
theorem explore_group_watermark (t : ExploreGroupTask) (g : Group)
    (ht : t.state = ExploreGroupState.Init) :
    ((t.execute g).2.2.1
      = ((g.m_exprs.drop (t.last_explored_m_expr.getD 0)).map
          (fun m => (m.group_index, m.index))))
    ∧ (t.last_explored_m_expr.getD 0 = g.num_exprs →
        (t.execute g).1.state = ExploreGroupState.Explored
        ∧ (t.execute g).2.1.state = GroupState.Explored
        ∧ (t.execute g).2.2.1 = [])
    ∧ (t.last_explored_m_expr.getD 0 ≠ g.num_exprs →
        (t.execute g).1.state = ExploreGroupState.Init
        ∧ (t.execute g).1.last_explored_m_expr = some g.num_exprs
        ∧ (t.execute g).2.1 = g
        ∧ (t.execute g).2.2.2 = true) := by
  by_cases hw : t.last_explored_m_expr.getD 0 = g.num_exprs
  · refine ⟨?_, ?_, fun hc => absurd hw hc⟩
    · simp [ExploreGroupTask.execute, ExploreGroupTask.transition,
        ExploreGroupTask.explore_group, Group.num_exprs, ht, hw,
        List.drop_eq_nil_of_le]
    · intro _
      refine ⟨?_, ?_, ?_⟩ <;>
        simp [ExploreGroupTask.execute, ExploreGroupTask.transition,
          ExploreGroupTask.explore_group, Group.set_state, ht, hw]
  · refine ⟨?_, fun hc => absurd hc hw, ?_⟩
    · simp [ExploreGroupTask.execute, ExploreGroupTask.transition,
        ExploreGroupTask.explore_group, ht, hw]
    · intro _
      refine ⟨?_, ?_, ?_, ?_⟩ <;>
        simp [ExploreGroupTask.execute, ExploreGroupTask.transition,
          ExploreGroupTask.explore_group, ht, hw]

/-- Witness for C4: a fresh task over a two-expression group schedules both
expressions and advances its watermark to 2; a task whose watermark already
equals 2 transitions itself and the group to `Explored`. -/
theorem explore_group_watermark_witness :
    ((ExploreGroupTask.mk ExploreGroupState.Init 0 none).execute
        (Group.mk [MExpr.mk 0 0, MExpr.mk 0 1] GroupState.Init)).2.2.1
      = [(0, 0), (0, 1)]
    ∧ ((ExploreGroupTask.mk ExploreGroupState.Init 0 (some 2)).execute
        (Group.mk [MExpr.mk 0 0, MExpr.mk 0 1] GroupState.Init)).1.state
      = ExploreGroupState.Explored
    ∧ ((ExploreGroupTask.mk ExploreGroupState.Init 0 (some 2)).execute
        (Group.mk [MExpr.mk 0 0, MExpr.mk 0 1] GroupState.Init)).2.1.state
      = GroupState.Explored := by
  refine ⟨?_, ?_, ?_⟩
  · have h := (explore_group_watermark
      (ExploreGroupTask.mk ExploreGroupState.Init 0 none)
      (Group.mk [MExpr.mk 0 0, MExpr.mk 0 1] GroupState.Init) rfl).1
    simpa using h
  · exact ((explore_group_watermark
      (ExploreGroupTask.mk ExploreGroupState.Init 0 (some 2))
      (Group.mk [MExpr.mk 0 0, MExpr.mk 0 1] GroupState.Init) rfl).2.1 rfl).1
  · exact ((explore_group_watermark
      (ExploreGroupTask.mk ExploreGroupState.Init 0 (some 2))
      (Group.mk [MExpr.mk 0 0, MExpr.mk 0 1] GroupState.Init) rfl).2.1 rfl).2.1

end Cascades

end Databend

namespace Databend

namespace SubqueryRewriter

/-- C2: an uncorrelated EXISTS / NOT EXISTS subquery is rewritten to a cross
join of the outer tree with `Filter(count(*) = 1` for EXISTS,
`count(*) != 1` for NOT EXISTS`)` over `Aggregate(count(*))` over a `Limit 1`
node wrapped around the original subquery tree — the `Limit 1` wrap is always
inserted before the count — and, the result being a `SimpleJoin`, the
subquery occurrence in the scalar expression is replaced by the boolean
constant `TRUE`. -/
theorem exists_rewrite (meta : Metadata) (outer : SExpr) (sq : Subquery)
    (h : sq.typ = SubqueryType.Exists ∨ sq.typ = SubqueryType.NotExists) :
    try_rewrite_uncorrelated_subquery meta outer sq =
      Except.ok
        ((SExpr.create
            (RelOperator.LogicalInnerJoin [] [] [] JoinType.Cross none false)
            [outer,
             SExpr.create
               (RelOperator.Filter
                 [Scalar.ComparisonExpr
                   (if sq.typ = SubqueryType.Exists then ComparisonOp.Equal
                    else ComparisonOp.NotEqual)
                   (Scalar.BoundColumnRef
                     (ColumnBinding.mk none none "count(*)"
                       meta.columns.length count_return_type
                       Visibility.Visible))
                   (Scalar.ConstantExpr (DataValue.Int64 1) count_return_type)
                   count_return_type]
                 false)
               [SExpr.create
                 (RelOperator.Aggregate []
                   [ScalarItem.mk
                     (Scalar.AggregateFunction "count(*)" "count" false [] []
                       count_return_type)
                     meta.columns.length]
                   false AggregateMode.Initial)
                 [SExpr.create (RelOperator.Limit (some 1) 0) [sq.subquery]]]],
          UnnestResult.SimpleJoin),
         Metadata.mk (meta.columns ++ [("count(*)", count_return_type)]))
    ∧ rewrite_uncorrelated_occurrence meta outer sq =
        (try_rewrite_uncorrelated_subquery meta outer sq).map
          (fun r =>
            ((Scalar.ConstantExpr (DataValue.Boolean true)
                BooleanType.new_impl,
              r.1.1),
             r.2)) := by
  obtain ⟨t, sub, ce0, co0, ocol, pi, dt⟩ := sq
  simp only [Subquery.typ] at h ⊢
  rcases h with rfl | rfl
  · exact ⟨rfl, rfl⟩
  · exact ⟨rfl, rfl⟩

/-- Witness for C2: a concrete uncorrelated EXISTS subquery over a table scan
is replaced by the constant `TRUE` in the scalar expression. -/
theorem exists_rewrite_witness :
    (rewrite_uncorrelated_occurrence (Metadata.mk [])
        (SExpr.create RelOperator.DummyTableScan [])
        (Subquery.mk SubqueryType.Exists
          (SExpr.create (RelOperator.LogicalGet 7) []) none none 0 none
          BooleanType.new_impl)).map (fun r => r.1.1)
      = Except.ok
          (Scalar.ConstantExpr (DataValue.Boolean true) BooleanType.new_impl) := by
  have h := (exists_rewrite (Metadata.mk [])
    (SExpr.create RelOperator.DummyTableScan [])
    (Subquery.mk SubqueryType.Exists
      (SExpr.create (RelOperator.LogicalGet 7) []) none none 0 none
      BooleanType.new_impl) (Or.inl rfl)).2
  rw [h]
  rfl

/-- C3: an uncorrelated ANY / quantified-comparison subquery produces a join
of type `LeftMark` whose left child — the probe side — is the subquery tree,
whose marker column, when registered by this rewrite, has type
`Nullable(Boolean)`, and whose occurrence in the scalar expression is
replaced by a bound column reference to the marker with data type
`Nullable(Boolean)`. -/
theorem any_rewrite (meta : Metadata) (outer : SExpr) (sq : Subquery)
    (ce : Scalar) (op : ComparisonOp) (rc : Scalar × Bool)
    (hty : sq.typ = SubqueryType.Any)
    (hce : sq.child_expr = some ce)
    (hop : sq.compare_op = some op)
    (hchk : check_child_expr_in_subquery ce op = Except.ok rc) :
    ∃ lc rcond oconds mi meta2,
      try_rewrite_uncorrelated_subquery meta outer sq =
        Except.ok
          ((SExpr.create
              (RelOperator.LogicalInnerJoin lc rcond oconds JoinType.LeftMark
                (some mi) false)
              [sq.subquery, outer],
            UnnestResult.MarkJoin mi),
           meta2)
      ∧ (sq.projection_index = none →
          mi = meta.columns.length
          ∧ meta2 = Metadata.mk (meta.columns ++
              [("marker", NullableType.new_impl BooleanType.new_impl)]))
      ∧ (∀ idx, sq.projection_index = some idx → mi = idx ∧ meta2 = meta)
      ∧ rewrite_uncorrelated_occurrence meta outer sq =
          Except.ok
            ((Scalar.BoundColumnRef
                (ColumnBinding.mk none none (toString mi) mi
                  (NullableType.new_impl BooleanType.new_impl)
                  Visibility.Visible),
              SExpr.create
                (RelOperator.LogicalInnerJoin lc rcond oconds
                  JoinType.LeftMark (some mi) false)
                [sq.subquery, outer]),
             meta2) := by
  obtain ⟨t, sub, ce0, co0, ocol, pi, dt⟩ := sq
  simp only [Subquery.typ] at hty
  subst hty
  simp only [Subquery.child_expr] at hce
  subst hce
  simp only [Subquery.compare_op] at hop
  subst hop
  obtain ⟨rcond_s, iscond⟩ := rc
  have hmain : ∀ (mi : Nat) (meta2 : Metadata),
      (match pi with
       | some idx => (idx, meta)
       | none =>
         meta.add_column "marker"
           (NullableType.new_impl BooleanType.new_impl)) = (mi, meta2) →
      ∃ lc rcond oconds,
        try_rewrite_uncorrelated_subquery meta outer
            (Subquery.mk SubqueryType.Any sub (some ce) (some op) ocol pi dt) =
          Except.ok
            ((SExpr.create
                (RelOperator.LogicalInnerJoin lc rcond oconds
                  JoinType.LeftMark (some mi) false)
                [sub, outer],
              UnnestResult.MarkJoin mi),
             meta2)
        ∧ rewrite_uncorrelated_occurrence meta outer
              (Subquery.mk SubqueryType.Any sub (some ce) (some op) ocol pi dt) =
            Except.ok
              ((Scalar.BoundColumnRef
                  (ColumnBinding.mk none none (toString mi) mi
                    (NullableType.new_impl BooleanType.new_impl)
                    Visibility.Visible),
                SExpr.create
                  (RelOperator.LogicalInnerJoin lc rcond oconds
                    JoinType.LeftMark (some mi) false)
                  [sub, outer]),
               meta2) := by
    intro mi meta2 hrm
    cases iscond with
    | false =>
      refine ⟨[Scalar.BoundColumnRef
          (ColumnBinding.mk none none ("subquery_" ++ toString ocol) ocol dt
            Visibility.Visible)], [rcond_s], [], ?_, ?_⟩
      · simp [try_rewrite_uncorrelated_subquery, Subquery.typ,
          Subquery.child_expr, Subquery.compare_op, Subquery.output_column,
          Subquery.data_type, Subquery.subquery, Subquery.projection_index,
          SExpr.create_binary, hchk, hrm]
      · simp [rewrite_uncorrelated_occurrence,
          try_rewrite_uncorrelated_subquery, Subquery.typ,
          Subquery.child_expr, Subquery.compare_op, Subquery.output_column,
          Subquery.data_type, Subquery.subquery, Subquery.projection_index,
          SExpr.create_binary, hchk, hrm]
    | true =>
      refine ⟨[], [],
        [Scalar.ComparisonExpr op rcond_s
          (Scalar.BoundColumnRef
            (ColumnBinding.mk none none ("subquery_" ++ toString ocol) ocol dt
              Visibility.Visible))
          (NullableType.new_impl BooleanType.new_impl)], ?_, ?_⟩
      · simp [try_rewrite_uncorrelated_subquery, Subquery.typ,
          Subquery.child_expr, Subquery.compare_op, Subquery.output_column,
          Subquery.data_type, Subquery.subquery, Subquery.projection_index,
          SExpr.create_binary, hchk, hrm]
      · simp [rewrite_uncorrelated_occurrence,
          try_rewrite_uncorrelated_subquery, Subquery.typ,
          Subquery.child_expr, Subquery.compare_op, Subquery.output_column,
          Subquery.data_type, Subquery.subquery, Subquery.projection_index,
          SExpr.create_binary, hchk, hrm]
  cases pi with
  | none =>
    obtain ⟨lc, rcond, oconds, h1, h2⟩ :=
      hmain meta.columns.length
        (Metadata.mk (meta.columns ++
          [("marker", NullableType.new_impl BooleanType.new_impl)])) rfl
    refine ⟨lc, rcond, oconds, meta.columns.length,
      Metadata.mk (meta.columns ++
        [("marker", NullableType.new_impl BooleanType.new_impl)]),
      ?_, ?_, ?_, ?_⟩
    · simpa [Subquery.subquery] using h1
    · intro _
      exact ⟨rfl, rfl⟩
    · intro idx hidx
      simp [Subquery.projection_index] at hidx
    · exact h2
  | some idx =>
    obtain ⟨lc, rcond, oconds, h1, h2⟩ := hmain idx meta rfl
    refine ⟨lc, rcond, oconds, idx, meta, ?_, ?_, ?_, ?_⟩
    · simpa [Subquery.subquery] using h1
    · intro hnone
      simp [Subquery.projection_index] at hnone
    · intro idx2 hidx
      simp only [Subquery.projection_index] at hidx
      cases hidx
      exact ⟨rfl, rfl⟩
    · exact h2

/-- Witness for C3: a concrete `x = ANY(SELECT ...)` subquery over a table
scan, compared against a plain column reference, is replaced by a bound
column reference to the freshly registered marker column of type
`Nullable(Boolean)`. -/
theorem any_rewrite_witness :
    (rewrite_uncorrelated_occurrence (Metadata.mk [])
        (SExpr.create RelOperator.DummyTableScan [])
        (Subquery.mk SubqueryType.Any
          (SExpr.create (RelOperator.LogicalGet 3) [])
          (some (Scalar.BoundColumnRef
            (ColumnBinding.mk none none "a" 9 DataTypeImpl.Int64
              Visibility.Visible)))
          (some ComparisonOp.Equal) 1 none BooleanType.new_impl)).map
        (fun r => r.1.1)
      = Except.ok
          (Scalar.BoundColumnRef
            (ColumnBinding.mk none none "0" 0
              (NullableType.new_impl BooleanType.new_impl)
              Visibility.Visible)) := by
  obtain ⟨lc, rcond, oconds, mi, meta2, h1, h2, h3, h4⟩ :=
    any_rewrite (Metadata.mk []) (SExpr.create RelOperator.DummyTableScan [])
      (Subquery.mk SubqueryType.Any
        (SExpr.create (RelOperator.LogicalGet 3) [])
        (some (Scalar.BoundColumnRef
          (ColumnBinding.mk none none "a" 9 DataTypeImpl.Int64
            Visibility.Visible)))
        (some ComparisonOp.Equal) 1 none BooleanType.new_impl)
      (Scalar.BoundColumnRef
        (ColumnBinding.mk none none "a" 9 DataTypeImpl.Int64
          Visibility.Visible))
      ComparisonOp.Equal
      (Scalar.BoundColumnRef
        (ColumnBinding.mk none none "a" 9 DataTypeImpl.Int64
          Visibility.Visible), false)
      rfl rfl rfl rfl
  obtain ⟨hmi, -⟩ := h2 rfl
  subst hmi
  rw [h4]
  rfl

end SubqueryRewriter

end Databend
